import Mathlib

/-!
Shallow embedding of the Pakistan Internet Timeline content pipeline:
`TemplateRenderer` (template-renderer source), `JSONValidator`
(src/js/json-validator.js) and `PakistanTimelineApp` (src/js/app.js).

JavaScript values are modelled by the inductive `JValue`; machinery that can
throw at runtime (property access on null/undefined, `in` on a non-object,
calling `.find` on a non-array, ...) is modelled in the `Except String` monad,
with the thrown message as the payload.  The DOM is modelled as an association
list from selector to current innerHTML; the compiled-template table maps a
template name to an opaque rendering function that may itself throw.
-/

/-- Model of a JavaScript (JSON-extended) runtime value.  `vundefined` is the
JS `undefined`, distinct from `vnull`. -/
inductive JValue where
  | vnull
  | vundefined
  | vbool (b : Bool)
  | vnum (n : Int)
  | vstr (s : String)
  | varr (xs : List JValue)
  | vobj (fields : List (String × JValue))

/-- JS truthiness: `false`, `0`, `""`, `null`, `undefined` are falsy. -/
def falsy : JValue → Bool
  | .vnull => true
  | .vundefined => true
  | .vbool b => !b
  | .vnum n => n == 0
  | .vstr s => s == ""
  | .varr _ => false
  | .vobj _ => false

/-- JS truthiness, positive form. -/
def truthy (v : JValue) : Bool := !falsy v

/-- JS `typeof`; note `typeof null` is `"object"` and arrays are `"object"`. -/
def jsTypeof : JValue → String
  | .vnull => "object"
  | .vundefined => "undefined"
  | .vbool _ => "boolean"
  | .vnum _ => "number"
  | .vstr _ => "string"
  | .varr _ => "object"
  | .vobj _ => "object"

/-- JS `Array.isArray`. -/
def isArray : JValue → Bool
  | .varr _ => true
  | _ => false

/-- Non-throwing property read (`v[f]` with `v` known not null/undefined):
missing keys give `undefined`; arrays expose `length` and numeric indices;
strings expose `length`. -/
def getPropD : JValue → String → JValue
  | .vobj fs, f => (fs.lookup f).getD .vundefined
  | .varr xs, f =>
    if f == "length" then .vnum xs.length
    else match f.toNat? with
      | some i => xs.getD i .vundefined
      | none => .vundefined
  | .vstr s, f => if f == "length" then .vnum s.length else .vundefined
  | _, _ => .vundefined

/-- Property read `v.f` as in JS: throws a TypeError on null/undefined. -/
def getProp (v : JValue) (f : String) : Except String JValue :=
  match v with
  | .vnull => .error ("Cannot read properties of null (reading \x27" ++ f ++ "\x27)")
  | .vundefined => .error ("Cannot read properties of undefined (reading \x27" ++ f ++ "\x27)")
  | _ => .ok (getPropD v f)

mutual

/-- JS string coercion (template literals, object keys). -/
def jsToString : JValue → String
  | .vstr s => s
  | .vnum n => toString n
  | .vbool b => if b then "true" else "false"
  | .vnull => "null"
  | .vundefined => "undefined"
  | .varr xs => String.intercalate "," (jsToStringList xs)
  | .vobj _ => "[object Object]"

/-- Pointwise `jsToString` over array elements. -/
def jsToStringList : List JValue → List String
  | [] => []
  | x :: xs => jsToString x :: jsToStringList xs

end

/-- JS `a || b`: the first operand if truthy, else the second. -/
def jsOr (a b : JValue) : JValue := if truthy a then a else b

/-- Method call `v.toLowerCase()`: defined on strings, throws otherwise. -/
def jsToLowerCase (v : JValue) : Except String String :=
  match v with
  | .vstr s => .ok ⟨s.data.map Char.toLower⟩
  | .vnull => .error "Cannot read properties of null (reading \x27toLowerCase\x27)"
  | .vundefined => .error "Cannot read properties of undefined (reading \x27toLowerCase\x27)"
  | _ => .error "toLowerCase is not a function"

/-- Does the character list `l` start with `p`? -/
def charsStartWith : List Char → List Char → Bool
  | _, [] => true
  | [], _ :: _ => false
  | c :: cs, p :: ps => c == p && charsStartWith cs ps

/-- Does the character list contain `p` as a contiguous run? -/
def charsHave : List Char → List Char → Bool
  | [], p => charsStartWith [] p
  | c :: cs, p => charsStartWith (c :: cs) p || charsHave cs p

/-- JS `s.includes(pat)`. -/
def strIncludes (s pat : String) : Bool := charsHave s.data pat.data

/-- Iteration core of JS `Array.prototype.find` with a possibly-throwing
callback. -/
def jsFindGo (p : JValue → Except String Bool) : List JValue → Except String JValue
  | [] => .ok .vundefined
  | x :: xs => do
    let b ← p x
    if b then pure x else jsFindGo p xs

/-- Method call `v.find(p)`: array search, `undefined` when no match; throws
when `v` is not an array. -/
def jsFind (v : JValue) (p : JValue → Except String Bool) : Except String JValue :=
  match v with
  | .varr xs => jsFindGo p xs
  | .vnull => .error "Cannot read properties of null (reading \x27find\x27)"
  | .vundefined => .error "Cannot read properties of undefined (reading \x27find\x27)"
  | _ => .error "find is not a function"

/-- Iteration core of JS `Array.prototype.map` with a possibly-throwing
callback. -/
def jsMapGo (p : JValue → Except String JValue) : List JValue → Except String (List JValue)
  | [] => .ok []
  | x :: xs => do
    let y ← p x
    let ys ← jsMapGo p xs
    pure (y :: ys)

/-- Method call `v.map(p)`: throws when `v` is not an array. -/
def jsMap (v : JValue) (p : JValue → Except String JValue) : Except String (List JValue) :=
  match v with
  | .varr xs => jsMapGo p xs
  | .vnull => .error "Cannot read properties of null (reading \x27map\x27)"
  | .vundefined => .error "Cannot read properties of undefined (reading \x27map\x27)"
  | _ => .error "map is not a function"

/-! ## TemplateRenderer -/

/-- A compiled Handlebars template: an opaque function from the data object to
rendered HTML, which may throw (modelled by `Except`). -/
structure Template where
  run : JValue → Except String String

/-- The `compiledTemplates` table of `TemplateRenderer`. -/
abbrev RState := List (String × Template)

/-- The DOM as seen through `document.querySelector`: an association list from
selector to the element's current innerHTML.  A selector not in the list does
not resolve. -/
abbrev Dom := List (String × String)

/-- Overwrite the innerHTML of the element resolved by `sel` (no effect when
the selector does not resolve). -/
def domSet (dom : Dom) (sel html : String) : Dom :=
  dom.map (fun p => if p.1 == sel then (p.1, html) else p)

/-- The inline error placeholder written by
`TemplateRenderer.handleRenderError`, verbatim from the source template
literal. -/
def errorPlaceholder (templateName msg : String) : String :=
  "\n                <div class=\"render-error\">\n                    <h4>⚠️ Content Loading Error</h4>\n                    <p>Unable to load "
    ++ templateName
    ++ " content.</p>\n                    <small>Error: "
    ++ msg
    ++ "</small>\n                </div>\n            "

/-- `TemplateRenderer.handleRenderError`: re-resolves the target and, when it
resolves, overwrites its content with the inline error placeholder. -/
def handleRenderError (dom : Dom) (templateName targetSelector msg : String) : Dom :=
  match dom.lookup targetSelector with
  | some _ => domSet dom targetSelector (errorPlaceholder templateName msg)
  | none => dom

/-- `TemplateRenderer.renderTemplate`: validates template/data/target, renders
and inserts; the body's try/catch turns a rendering exception into the inline
placeholder plus a `false` return, so the call itself never throws. -/
def renderTemplate (st : RState) (dom : Dom) (templateName : String) (data : JValue)
    (targetSelector : String) : Bool × Dom :=
  match st.lookup templateName with
  | none => (false, dom)
  | some tpl =>
    if falsy data then (false, dom)
    else match dom.lookup targetSelector with
      | none => (false, dom)
      | some _ =>
        match tpl.run data with
        | .ok html => (true, domSet dom targetSelector html)
        | .error msg => (false, handleRenderError dom templateName targetSelector msg)

/-- `TemplateRenderer.renderHeroStats`. -/
def renderHeroStats (st : RState) (dom : Dom) (heroStatsData : JValue) : Bool × Dom :=
  renderTemplate st dom "heroStats" (.vobj [("heroStats", heroStatsData)]) "#heroStats"

/-- `TemplateRenderer.getSocialMediaIcon`. -/
def getSocialMediaIcon (platform : JValue) : String :=
  match ([("Facebook", "📘"), ("YouTube", "📹"), ("WhatsApp", "💬"), ("TikTok", "🎵"),
      ("Twitter", "🐦"), ("Instagram", "📷")] : List (String × String)).lookup
      (jsToString platform) with
  | some i => i
  | none => "📱"

/-- The identifier-to-template-name table of
`TemplateRenderer.compileAllTemplates` (seven registered names). -/
def templateMappings : List (String × String) :=
  [("heroStats", "hero-stats-template"), ("historicalEvents", "historical-events-template"),
   ("statistics", "statistics-template"), ("companies", "company-template"),
   ("socialMedia", "social-media-template"), ("policies", "policy-template"),
   ("infrastructure", "infrastructure-template")]

/-- `TemplateRenderer.isReady`: the five templates needed for first paint are
compiled.  `policies` and `infrastructure` are not consulted. -/
def isReady (st : RState) : Bool :=
  (["heroStats", "historicalEvents", "statistics", "companies", "socialMedia"] :
    List String).all (fun t => (st.lookup t).isSome)

/-- Body of `TemplateRenderer.renderFoundationEra` up to (but excluding) the
final `success.every(...)`: issues the constituent `renderTemplate` calls in
source order, collecting their boolean outcomes. -/
def renderFoundationEraCore (st : RState) (dom : Dom) (foundationData : JValue) :
    Except String (List Bool × Dom) := do
  let ev ← getProp foundationData "events"
  let (s1, dom1) ←
    if truthy ev && (match getPropD ev "length" with
        | .vnum n => decide (0 < n)
        | _ => false) then do
      let ptcl ← jsFind ev (fun e => do
        let tl ← jsToLowerCase (← getProp e "title")
        pure (strIncludes tl "ptcl privatization"))
      if truthy ptcl then
        let r := renderTemplate st dom "historicalEvents"
          (.vobj [("events", .varr [ptcl])]) "#ptclPrivatization"
        pure ([r.1], r.2)
      else pure (([] : List Bool), dom)
    else pure (([] : List Bool), dom)
  let r1 := renderTemplate st dom1 "historicalEvents" (.vobj [("events", ev)])
    "#foundationMilestones"
  let ys ← getProp foundationData "yearlyStats"
  let r2 := renderTemplate st r1.2 "statistics" (.vobj [("yearlyStats", ys)]) "#foundationStats"
  let r3 := renderTemplate st r2.2 "historicalEvents" (.vobj [("events", ev)])
    "#foundationTimeline"
  pure (s1 ++ [r1.1, r2.1, r3.1], r3.2)

/-- `TemplateRenderer.renderFoundationEra`: returns
`success.every(result => result === true)`. -/
def renderFoundationEra (st : RState) (dom : Dom) (foundationData : JValue) :
    Except String (Option Bool × Dom) :=
  (renderFoundationEraCore st dom foundationData).map
    (fun r => (some (r.1.all (· == true)), r.2))

/-- Body of `TemplateRenderer.renderMobileEra` up to the final
`success.every(...)`. -/
def renderMobileEraCore (st : RState) (dom : Dom) (mobileData : JValue) :
    Except String (List Bool × Dom) := do
  let ev ← getProp mobileData "events"
  let launch3G4G ← jsFind ev (fun e => do
    let tl ← jsToLowerCase (← getProp e "title")
    pure (strIncludes tl "3g/4g" || strIncludes tl "spectrum auction"))
  let (s1, dom1) :=
    if truthy launch3G4G then
      let r := renderTemplate st dom "historicalEvents"
        (.vobj [("events", .varr [launch3G4G])]) "#mobile3G4G"
      ([r.1], r.2)
    else (([] : List Bool), dom)
  let smg ← getProp mobileData "socialMediaGrowth"
  let platforms ← jsMap smg (fun platform => do
    let pf ← getProp platform "platform"
    let users ← getProp platform "users"
    let peakUsers ← getProp platform "peakUsers"
    let pen ← getProp platform "penetration"
    let ranking ← getProp platform "ranking"
    let note ← getProp platform "note"
    let status ← getProp platform "status"
    pure (JValue.vobj [("icon", .vstr (getSocialMediaIcon pf)), ("name", pf),
      ("users", jsOr users peakUsers),
      ("penetration", jsOr pen (.vstr (jsToString ranking))),
      ("note", jsOr note status)]))
  let r2 := renderTemplate st dom1 "socialMedia" (.vobj [("platforms", .varr platforms)])
    "#socialMediaGrowth"
  let policyEvent ← jsFind ev (fun e => do
    let tl ← jsToLowerCase (← getProp e "title")
    pure (strIncludes tl "digital pakistan policy"))
  if truthy policyEvent then
    let r3 := renderTemplate st r2.2 "historicalEvents"
      (.vobj [("events", .varr [policyEvent])]) "#digitalPakistanPolicy"
    pure (s1 ++ [r2.1, r3.1], r3.2)
  else
    pure (s1 ++ [r2.1], r2.2)

/-- `TemplateRenderer.renderMobileEra`. -/
def renderMobileEra (st : RState) (dom : Dom) (mobileData : JValue) :
    Except String (Option Bool × Dom) :=
  (renderMobileEraCore st dom mobileData).map
    (fun r => (some (r.1.all (· == true)), r.2))

/-- Body of `TemplateRenderer.renderFintechEra` up to the final
`success.every(...)`. -/
def renderFintechEraCore (st : RState) (dom : Dom) (fintechData : JValue) :
    Except String (List Bool × Dom) := do
  let ev ← getProp fintechData "events"
  let raastEvent ← jsFind ev (fun e => do
    let tl ← jsToLowerCase (← getProp e "title")
    pure (strIncludes tl "raast"))
  let (s1, dom1) :=
    if truthy raastEvent then
      let r := renderTemplate st dom "historicalEvents"
        (.vobj [("events", .varr [raastEvent])]) "#raastRevolution"
      ([r.1], r.2)
    else (([] : List Bool), dom)
  let mb ← getProp fintechData "mobileBanking"
  let services ← jsMap mb (fun service => do
    let sname ← getProp service "service"
    let users ← getProp service "users"
    let parent ← getProp service "parent"
    let desc ← getProp service "description"
    pure (JValue.vobj [("name", sname), ("marketShare", .vstr ""),
      ("subscribers", jsOr users (.vstr "Market leader")),
      ("founded", parent), ("keyMilestone", desc)]))
  let r2 := renderTemplate st dom1 "companies" (.vobj [("companies", .varr services)])
    "#mobileBanking"
  let ib ← getProp fintechData "investmentBoom"
  let comps ← jsMap ib (fun company => do
    let cname ← getProp company "company"
    let funding ← getProp company "funding"
    let ctype ← getProp company "type"
    let note ← getProp company "note"
    pure (JValue.vobj [("name", cname), ("marketShare", .vstr ""),
      ("subscribers", funding), ("founded", ctype),
      ("keyMilestone", jsOr note (.vstr "Fintech startup"))]))
  let r3 := renderTemplate st r2.2 "companies" (.vobj [("companies", .varr comps)])
    "#investmentBoom"
  pure (s1 ++ [r2.1, r3.1], r3.2)

/-- `TemplateRenderer.renderFintechEra`. -/
def renderFintechEra (st : RState) (dom : Dom) (fintechData : JValue) :
    Except String (Option Bool × Dom) :=
  (renderFintechEraCore st dom fintechData).map
    (fun r => (some (r.1.all (· == true)), r.2))

/-- Body of `TemplateRenderer.renderSidebarContent`: issues its three
conditional `renderTemplate` calls, discarding each boolean outcome, and
produces only the final DOM. -/
def renderSidebarDom (st : RState) (dom : Dom) (allData : JValue) : Except String Dom := do
  let me ← getProp allData "mobileEra"
  let dom1 ←
    if truthy me then do
      let covidEvent ← jsFind (getPropD me "events") (fun e => do
        let tl ← jsToLowerCase (← getProp e "title")
        pure (strIncludes tl "covid"))
      pure (if truthy covidEvent then
          (renderTemplate st dom "historicalEvents"
            (.vobj [("events", .varr [covidEvent])]) "#covidImpact").2
        else dom)
    else pure dom
  let fg ← getProp allData "fiveGFuture"
  let dom2 ←
    if truthy fg then do
      let fiveGData := JValue.vobj [("name", .vstr "5G Commercial Launch"),
        ("icon", .vstr "🚀"),
        ("specifications", .varr [
          .vobj [("label", .vstr "Launch Timeline"), ("value", getPropD fg "launchTimeline")],
          .vobj [("label", .vstr "Test Speeds"), ("value", getPropD fg "testSpeeds")],
          .vobj [("label", .vstr "Regional First"), ("value", getPropD fg "regionalFirst")]])]
      pure (renderTemplate st dom1 "infrastructure"
        (.vobj [("infrastructure", .varr [fiveGData])]) "#fiveGFuture").2
    else pure dom1
  let dd ← getProp allData "digitalDivides"
  let dom3 ←
    if truthy dd then do
      let gg ← getProp dd "genderGap"
      let p ← getProp gg "percentage"
      let ma ← getProp gg "menAccess"
      let wa ← getProp gg "womenAccess"
      let geo ← getProp dd "geographicGap"
      let ua ← getProp geo "urbanAccess"
      let ra ← getProp geo "ruralAccess"
      let divideData := JValue.vobj [("name", .vstr "Digital Divide Challenges"),
        ("icon", .vstr "⚖️"),
        ("specifications", .varr [
          .vobj [("label", .vstr "Gender Gap"),
            ("value", .vstr (jsToString p ++ " (World\x27s highest)"))],
          .vobj [("label", .vstr "Men vs Women"),
            ("value", .vstr (jsToString ma ++ " vs " ++ jsToString wa))],
          .vobj [("label", .vstr "Urban vs Rural"),
            ("value", .vstr (jsToString ua ++ " vs " ++ jsToString ra))]])]
      pure (renderTemplate st dom2 "infrastructure"
        (.vobj [("infrastructure", .varr [divideData])]) "#digitalDivide").2
    else pure dom2
  pure dom3

/-- `TemplateRenderer.renderSidebarContent`: the source function has no
`return` statement, so its JS return value is `undefined` (modelled `none`). -/
def renderSidebarContent (st : RState) (dom : Dom) (allData : JValue) :
    Except String (Option Bool × Dom) :=
  (renderSidebarDom st dom allData).map (fun d => (none, d))

/-! ## JSONValidator

The validator instance carries one piece of state, `this.validationErrors`.
`VM` threads that list explicitly and models a thrown-and-propagating JS
exception by an `Except.error` carrying the message; `vmTry` is the
`try`/`catch` of `validateJSONData`. -/

/-- Validator computations: state `this.validationErrors`, exceptions as
`Except.error`. -/
def VM (α : Type) : Type := List String → Except String α × List String

instance : Monad VM where
  pure a := fun s => (.ok a, s)
  bind x f := fun s =>
    match x s with
    | (.ok a, s1) => f a s1
    | (.error e, s1) => (.error e, s1)

/-- JS `try x catch (e) h(e)` inside the validator. -/
def vmTry (x : VM α) (h : String → VM α) : VM α := fun s =>
  match x s with
  | (.error e, s1) => h e s1
  | r => r

/-- A thrown JS exception with message `m`. -/
def vmThrow (m : String) : VM α := fun s => (.error m, s)

/-- `JSONValidator.addError`. -/
def addError (e : String) : VM Unit := fun s => (.ok (), s ++ [e])

/-- Reset of `this.validationErrors` at the top of `validateJSONData`. -/
def resetErrors : VM Unit := fun _ => (.ok (), [])

/-- The JS `in` operator `f in v`: property-presence on objects and arrays,
TypeError on anything else (including `null`). -/
def jsIn (f : String) (v : JValue) : VM Bool :=
  match v with
  | .vobj fs => pure ((fs.lookup f).isSome)
  | .varr xs =>
    pure (f == "length" || (match f.toNat? with
      | some i => decide (i < xs.length)
      | none => false))
  | .vnull => vmThrow ("Cannot use \x27in\x27 operator to search for \x27" ++ f ++ "\x27 in null")
  | .vundefined =>
    vmThrow ("Cannot use \x27in\x27 operator to search for \x27" ++ f ++ "\x27 in undefined")
  | _ =>
    vmThrow ("Cannot use \x27in\x27 operator to search for \x27" ++ f ++ "\x27 in "
      ++ jsToString v)

/-- JS `Object.keys`. -/
def jsKeys : JValue → List String
  | .vobj fs => fs.map Prod.fst
  | .varr xs => (List.range xs.length).map toString
  | _ => []

/-- A declared field type in the Schema Registry: one primitive-type name or a
union of acceptable ones. -/
inductive FieldType where
  | single (t : String)
  | union (ts : List String)

/-- One entry of the Schema Registry (`JSONValidator.getRequiredFields`). -/
structure FieldSpec where
  required : List String
  optionalFields : List String
  types : List (String × FieldType)

/-- `JSONValidator.getRequiredFields`, verbatim from the source table. -/
def getRequiredFields : List (String × FieldSpec) :=
  [("heroStats",
    { required := ["icon", "title", "value", "description"]
      optionalFields := []
      types := [("icon", .single "string"), ("title", .single "string"),
        ("value", .single "string"), ("description", .single "string")] }),
   ("historicalEvents",
    { required := ["date", "title", "description"]
      optionalFields := ["impact"]
      types := [("date", .single "string"), ("title", .single "string"),
        ("description", .single "string"), ("impact", .single "string")] }),
   ("yearlyStats",
    { required := ["year", "users", "penetration"]
      optionalFields := []
      types := [("year", .single "string"), ("users", .single "string"),
        ("penetration", .single "string")] }),
   ("socialMediaPlatforms",
    { required := ["platform", "users"]
      optionalFields := ["penetration", "ranking", "note", "status"]
      types := [("platform", .single "string"), ("users", .single "string"),
        ("penetration", .single "string"), ("ranking", .single "string"),
        ("note", .single "string"), ("status", .single "string")] }),
   ("companies",
    { required := ["name", "marketShare", "subscribers"]
      optionalFields := ["founded", "keyMilestone"]
      types := [("name", .single "string"), ("marketShare", .union ["string", "number"]),
        ("subscribers", .single "string"), ("founded", .single "string"),
        ("keyMilestone", .single "string")] }),
   ("policies",
    { required := ["title", "year", "target", "achievement"]
      optionalFields := ["description", "achievementStatus"]
      types := [("title", .single "string"), ("year", .union ["string", "number"]),
        ("target", .single "string"), ("achievement", .single "string"),
        ("description", .single "string"), ("achievementStatus", .single "string")] }),
   ("infrastructure",
    { required := ["name", "icon", "specifications"]
      optionalFields := []
      types := [("name", .single "string"), ("icon", .single "string"),
        ("specifications", .single "array")] })]

/-- `JSONValidator.validateFieldType`: classifies the actual type (`array`
before `typeof`) and records a mismatch error; a union passes when any member
matches. -/
def validateFieldType (value : JValue) (expectedType : FieldType) (fieldPath : String) :
    VM Unit :=
  let actualType := if isArray value then "array" else jsTypeof value
  match expectedType with
  | .union ts =>
    if ts.contains actualType then pure ()
    else addError (fieldPath ++ " must be one of: " ++ String.intercalate ", " ts
      ++ ", got: " ++ actualType)
  | .single t =>
    if actualType == t then pure ()
    else addError (fieldPath ++ " must be " ++ t ++ ", got: " ++ actualType)

/-- The required-fields loop of `JSONValidator.validateItemStructure`:
`field in item` (which throws on a null item), then a missing-field error or a
type check of the present value. -/
def checkRequired (spec : FieldSpec) (item : JValue) (itemPath : String) :
    List String → VM Unit
  | [] => pure ()
  | f :: fs =>
    jsIn f item >>= fun present =>
    (if present then
      validateFieldType (getPropD item f) ((spec.types.lookup f).getD (.single "undefined"))
        (itemPath ++ "." ++ f)
    else
      addError (itemPath ++ " missing required field: " ++ f)) >>= fun _ =>
    checkRequired spec item itemPath fs

/-- The `Object.keys` loop of `JSONValidator.validateItemStructure`: re-checks
the type of every present field that the Registry declares. -/
def checkPresent (spec : FieldSpec) (item : JValue) (itemPath : String) :
    List String → VM Unit
  | [] => pure ()
  | f :: fs =>
    (match spec.types.lookup f with
     | some ft => validateFieldType (getPropD item f) ft (itemPath ++ "." ++ f)
     | none => pure ()) >>= fun _ =>
    checkPresent spec item itemPath fs

/-- `JSONValidator.validateItemStructure`.  Note the guard uses `typeof`, so a
`null` item slips past it and the subsequent `in` check throws. -/
def validateItemStructure (item : JValue) (itemType itemPath : String) : VM Unit :=
  if jsTypeof item != "object" then
    addError (itemPath ++ " must be an object")
  else
    match getRequiredFields.lookup itemType with
    | none => addError ("Unknown item type: " ++ itemType)
    | some spec =>
      checkRequired spec item itemPath spec.required >>= fun _ =>
      checkPresent spec item itemPath (jsKeys item)

/-- The indexed `forEach` of `JSONValidator.validateArrayItems`. -/
def validateArrayItemsGo (itemType : String) : List JValue → Nat → VM Unit
  | [], _ => pure ()
  | x :: xs, i =>
    validateItemStructure x itemType (itemType ++ "[" ++ toString i ++ "]") >>= fun _ =>
    validateArrayItemsGo itemType xs (i + 1)

/-- `JSONValidator.validateArrayItems`. -/
def validateArrayItems (items : JValue) (itemType : String) : VM Unit :=
  match items with
  | .varr xs => validateArrayItemsGo itemType xs 0
  | _ => addError (itemType ++ " must be an array")

/-- `ValidationResult` as returned by the validator. -/
structure ValidationResult where
  success : Bool
  errors : List String
  data : Option String

/-- `JSONValidator.validationFailed`: a single-error failure result that
ignores the accumulator. -/
def validationFailed (message : String) : ValidationResult :=
  { success := false, errors := [message], data := none }

/-- `JSONValidator.getValidationResult`. -/
def getValidationResult : VM ValidationResult := fun s =>
  (.ok { success := s.isEmpty, errors := s, data := if s.isEmpty then some "Valid" else none },
    s)

/-- `JSONValidator.validateFoundationEra`. -/
def validateFoundationEra (foundationEra : JValue) : VM Unit :=
  (let ev := getPropD foundationEra "events"
   if !truthy ev || !isArray ev then addError "foundationEra.events must be an array"
   else validateArrayItems ev "historicalEvents") >>= fun _ =>
  (let ys := getPropD foundationEra "yearlyStats"
   if !truthy ys || !isArray ys then addError "foundationEra.yearlyStats must be an array"
   else validateArrayItems ys "yearlyStats")

/-- `JSONValidator.validateMobileEra`. -/
def validateMobileEra (mobileEra : JValue) : VM Unit :=
  (let ev := getPropD mobileEra "events"
   if !truthy ev || !isArray ev then addError "mobileEra.events must be an array"
   else validateArrayItems ev "historicalEvents") >>= fun _ =>
  (let smg := getPropD mobileEra "socialMediaGrowth"
   if !truthy smg || !isArray smg then addError "mobileEra.socialMediaGrowth must be an array"
   else validateArrayItems smg "socialMediaPlatforms")

/-- `JSONValidator.validateFintechEra`. -/
def validateFintechEra (fintechEra : JValue) : VM Unit :=
  (let ev := getPropD fintechEra "events"
   if !truthy ev || !isArray ev then addError "fintechEra.events must be an array"
   else validateArrayItems ev "historicalEvents") >>= fun _ =>
  (let mb := getPropD fintechEra "mobileBanking"
   if !truthy mb || !isArray mb then addError "fintechEra.mobileBanking must be an array"
   else pure ()) >>= fun _ =>
  (let ib := getPropD fintechEra "investmentBoom"
   if !truthy ib || !isArray ib then addError "fintechEra.investmentBoom must be an array"
   else pure ())

/-- `JSONValidator.validateHistoricalEvents`. -/
def validateHistoricalEvents (data : JValue) : VM ValidationResult :=
  (let hs := getPropD data "heroStats"
   if !truthy hs || !isArray hs then addError "heroStats must be an array"
   else validateArrayItems hs "heroStats") >>= fun _ =>
  (let fe := getPropD data "foundationEra"
   if !truthy fe || jsTypeof fe != "object" then addError "foundationEra must be an object"
   else validateFoundationEra fe) >>= fun _ =>
  (let me := getPropD data "mobileEra"
   if !truthy me || jsTypeof me != "object" then addError "mobileEra must be an object"
   else validateMobileEra me) >>= fun _ =>
  (let fte := getPropD data "fintechEra"
   if !truthy fte || jsTypeof fte != "object" then addError "fintechEra must be an object"
   else validateFintechEra fte) >>= fun _ =>
  getValidationResult

/-- `JSONValidator.validateStatistics` (the source body only returns the
current result). -/
def validateStatistics (_data : JValue) : VM ValidationResult :=
  getValidationResult

/-- `JSONValidator.validateCompanies`. -/
def validateCompanies (data : JValue) : VM ValidationResult :=
  (let c := getPropD data "companies"
   if !truthy c || !isArray c then addError "companies must be an array"
   else validateArrayItems c "companies") >>= fun _ =>
  getValidationResult

/-- `JSONValidator.validateSocialMedia`. -/
def validateSocialMedia (data : JValue) : VM ValidationResult :=
  (let p := getPropD data "platforms"
   if !truthy p || !isArray p then addError "platforms must be an array"
   else validateArrayItems p "socialMediaPlatforms") >>= fun _ =>
  getValidationResult

/-- `JSONValidator.validatePolicies`. -/
def validatePolicies (data : JValue) : VM ValidationResult :=
  (let p := getPropD data "policies"
   if !truthy p || !isArray p then addError "policies must be an array"
   else validateArrayItems p "policies") >>= fun _ =>
  getValidationResult

/-- `JSONValidator.validateInfrastructure`. -/
def validateInfrastructure (data : JValue) : VM ValidationResult :=
  (let i := getPropD data "infrastructure"
   if !truthy i || !isArray i then addError "infrastructure must be an array"
   else validateArrayItems i "infrastructure") >>= fun _ =>
  getValidationResult

/-- `JSONValidator.validateJSONData`: resets the accumulator, short-circuits
on null/non-object input, dispatches by kind, and converts any thrown
exception into a single wrapped failure result. -/
def validateJSONData (jsonData : JValue) (dataType : String) : VM ValidationResult :=
  resetErrors >>= fun _ =>
  if !truthy jsonData then pure (validationFailed "JSON data is null or undefined")
  else if jsTypeof jsonData != "object" then pure (validationFailed "JSON data must be an object")
  else
    vmTry
      (match dataType with
       | "historical_events" => validateHistoricalEvents jsonData
       | "statistics" => validateStatistics jsonData
       | "companies" => validateCompanies jsonData
       | "social_media" => validateSocialMedia jsonData
       | "policies" => validatePolicies jsonData
       | "infrastructure" => validateInfrastructure jsonData
       | _ => pure (validationFailed ("Unknown data type: " ++ dataType)))
      (fun e => pure (validationFailed ("Validation error: " ++ e)))

/-- One full call `validator.validateJSONData(d, k)` on an instance whose
`validationErrors` currently holds `s`, giving the returned result and the
instance state after the call. -/
def validateRun (jsonData : JValue) (dataType : String) (s : List String) :
    Except String ValidationResult × List String :=
  validateJSONData jsonData dataType s

/-! ## PakistanTimelineApp loader and orchestration

The network is an oracle `String → Nat → FetchResp` (per path, per attempt
number), and `JSON.parse` is an oracle `String → Except String JValue`
(success value or thrown syntax-error message). -/

/-- Outcome of one `fetch(filePath)`: a network failure (rejected promise) or
a response with `ok`, `status`, `statusText` and body text. -/
inductive FetchResp where
  | netError (msg : String)
  | httpResp (ok : Bool) (status : Nat) (statusText : String) (body : String)

/-- The `JSON.parse` oracle. -/
abbrev JSONParse := String → Except String JValue

/-- Result shape of the static `JSONValidator.validateJSONString`. -/
structure ParseResult where
  success : Bool
  error : Option String
  data : Option JValue

/-- `JSONValidator.validateJSONString` (the body handed to it is always a
string, so only the empty-string case of the falsy guard is reachable). -/
def validateJSONString (parse : JSONParse) (jsonString : String) : ParseResult :=
  if jsonString == "" then
    { success := false, error := some "JSON string is empty or not a string", data := none }
  else
    match parse jsonString with
    | .ok v => { success := true, error := none, data := some v }
    | .error m => { success := false, error := some ("JSON parse error: " ++ m), data := none }

/-- The body of one attempt of `PakistanTimelineApp.loadJSONFile`: fetch,
reject non-ok statuses, check the JSON syntax, and produce the parsed value;
any failure is the thrown message the catch block sees. -/
def attemptLoad (parse : JSONParse) (env : Nat → FetchResp) (attempt : Nat) :
    Except String JValue :=
  match env attempt with
  | .netError m => .error m
  | .httpResp ok status statusText body =>
    if !ok then .error ("HTTP " ++ toString status ++ ": " ++ statusText)
    else
      let parseResult := validateJSONString parse body
      if !parseResult.success then .error ((parseResult.error).getD "null")
      else .ok ((parseResult.data).getD .vnull)

/-- `this.config` of `PakistanTimelineApp`. -/
structure LoadConfig where
  retryAttempts : Nat
  retryDelay : Nat

/-- The constructor defaults: `retryAttempts: 3`, `retryDelay: 1000`. -/
def defaultConfig : LoadConfig := { retryAttempts := 3, retryDelay := 1000 }

/-- Result of the attempt loop of `loadJSONFile`: a parsed value, or
exhaustion carrying `lastError` (`none` only when the loop never ran). -/
inductive LoopOut where
  | got (v : JValue) (attempts : Nat) (delays : List Nat)
  | exhausted (lastErr : Option String) (attempts : Nat) (delays : List Nat)

/-- The `for (attempt = 1; attempt <= retryAttempts; ...)` loop of
`loadJSONFile`, recording the attempts made and each awaited delay
(`retryDelay * attempt`, awaited only when `attempt < retryAttempts`). -/
def loadLoop (cfg : LoadConfig) (parse : JSONParse) (env : Nat → FetchResp) :
    Nat → Nat → Option String → LoopOut
  | 0, _, lastErr => .exhausted lastErr 0 []
  | remaining + 1, attempt, _ =>
    match attemptLoad parse env attempt with
    | .ok v => .got v 1 []
    | .error m =>
      if remaining == 0 then .exhausted (some m) 1 []
      else
        match loadLoop cfg parse env remaining (attempt + 1) (some m) with
        | .got v a ds => .got v (a + 1) (cfg.retryDelay * attempt :: ds)
        | .exhausted l a ds => .exhausted l (a + 1) (cfg.retryDelay * attempt :: ds)

/-- Trace of one `loadJSONFile` call: its JS outcome (`.error` = thrown,
`.ok .vnull` includes the explicit `return null`), the number of attempts
made, and the sequence of inter-attempt delays awaited. -/
structure LoadResult where
  result : Except String JValue
  attempts : Nat
  delays : List Nat

/-- `PakistanTimelineApp.loadJSONFile`: bounded retries, then either the fatal
critical-file error (when the path contains `historical_events.json`) or a
logged warning and `return null`. -/
def loadJSONFile (cfg : LoadConfig) (parse : JSONParse) (env : Nat → FetchResp)
    (filePath : String) : LoadResult :=
  match loadLoop cfg parse env cfg.retryAttempts 1 none with
  | .got v a ds => { result := .ok v, attempts := a, delays := ds }
  | .exhausted none a ds =>
    { result := .error "Cannot read properties of null (reading \x27message\x27)",
      attempts := a, delays := ds }
  | .exhausted (some m) a ds =>
    if strIncludes filePath "historical_events.json" then
      { result := .error ("Failed to load critical data file: " ++ filePath
          ++ ". Last error: " ++ m),
        attempts := a, delays := ds }
    else
      { result := .ok .vnull, attempts := a, delays := ds }

/-- `this.data` of the app: a JS object, keyed in insertion order. -/
abbrev AppData := List (String × JValue)

/-- JS property assignment `obj[k] = v`: update in place or append. -/
def setKey : AppData → String → JValue → AppData
  | [], k, v => [(k, v)]
  | (k1, v1) :: rest, k, v =>
    if k1 == k then (k1, v) :: rest else (k1, v1) :: setKey rest k v

/-- The optional file list of `PakistanTimelineApp.loadOptionalDataFiles`. -/
def optionalFiles : List String :=
  ["data/statistics.json", "data/companies.json", "data/social_media.json",
   "data/policies.json", "data/infrastructure.json"]

/-- JS `String.prototype.split` with a one-character separator. -/
def splitChars (sep : Char) : List Char → List (List Char)
  | [] => [[]]
  | c :: cs =>
    let r := splitChars sep cs
    if c = sep then [] :: r
    else
      match r with
      | g :: gs => (c :: g) :: gs
      | [] => [[c]]

/-- JS `String.prototype.replace` with a string pattern: replaces only the
first occurrence. -/
def replaceFirstChars (pat repl : List Char) : List Char → List Char
  | [] => if charsStartWith [] pat then repl else []
  | c :: cs =>
    if charsStartWith (c :: cs) pat then repl ++ List.drop pat.length (c :: cs)
    else c :: replaceFirstChars pat repl cs

/-- Key derivation `file.split(\x27/\x27)[1].replace(\x27.json\x27, \x27\x27)`. -/
def deriveKey (file : String) : String :=
  ⟨replaceFirstChars ".json".data "".data ((splitChars '/' file.data).getD 1 [])⟩

/-- `PakistanTimelineApp.loadOptionalDataFiles`: each optional file is loaded
in list order; a truthy result is stored under the derived key, anything else
(including the `null` of an exhausted retry loop) leaves `this.data`
untouched. -/
def loadOptionalDataFiles (cfg : LoadConfig) (parse : JSONParse)
    (fenv : String → Nat → FetchResp) (data : AppData) : AppData :=
  optionalFiles.foldl
    (fun d file =>
      match (loadJSONFile cfg parse (fenv file) file).result with
      | .ok v => if truthy v then setKey d (deriveKey file) v else d
      | .error _ => d)
    data

/-- `PakistanTimelineApp.loadAllData`: the mandatory document first (its
failure propagates), stored when truthy (validation of it is advisory and its
result discarded), then the optional files. -/
def loadAllData (cfg : LoadConfig) (parse : JSONParse) (fenv : String → Nat → FetchResp)
    (data : AppData) : Except String AppData :=
  match (loadJSONFile cfg parse (fenv "data/historical_events.json")
      "data/historical_events.json").result with
  | .error m => .error m
  | .ok primaryData =>
    let data :=
      if truthy primaryData then
        let _ := validateRun primaryData "historical_events" []
        setKey data "historical_events" primaryData
      else data
    .ok (loadOptionalDataFiles cfg parse fenv data)

/-- `PakistanTimelineApp.renderAllContent`: template readiness gate, the
mandatory-data presence check, then the hero/era/sidebar render calls whose
boolean outcomes are discarded but whose exceptions are rethrown. -/
def renderAllContent (st : RState) (dom : Dom) (appData : AppData) : Except String Dom := do
  if !isReady st then .error "Templates failed to compile within timeout period"
  else
    let historicalData := (appData.lookup "historical_events").getD .vundefined
    if !truthy historicalData then .error "No historical data available for rendering"
    else do
      let hs ← getProp historicalData "heroStats"
      let dom1 := if truthy hs then (renderHeroStats st dom hs).2 else dom
      let fe ← getProp historicalData "foundationEra"
      let dom2 ←
        if truthy fe then do
          let r ← renderFoundationEra st dom1 fe
          pure r.2
        else pure dom1
      let me ← getProp historicalData "mobileEra"
      let dom3 ←
        if truthy me then do
          let r ← renderMobileEra st dom2 me
          pure r.2
        else pure dom2
      let fte ← getProp historicalData "fintechEra"
      let dom4 ←
        if truthy fte then do
          let r ← renderFintechEra st dom3 fte
          pure r.2
        else pure dom3
      let r ← renderSidebarContent st dom4 historicalData
      pure r.2

/-- `PakistanTimelineApp.retryDataLoad`: replays `loadAllData` on the existing
`this.data` (never cleared) and then `renderAllContent`; any thrown error goes
to `handleAppError`, leaving whatever `this.data` already holds. -/
def retryDataLoad (cfg : LoadConfig) (parse : JSONParse) (fenv : String → Nat → FetchResp)
    (st : RState) (dom : Dom) (data : AppData) : AppData × Except String Dom :=
  match loadAllData cfg parse fenv data with
  | .error m => (data, .error m)
  | .ok d2 => (d2, renderAllContent st dom d2)

/-! ## Concrete fixtures used by witnesses and counterexamples -/

/-- A template whose rendering always succeeds. -/
def tplOK : Template := ⟨fun _ => .ok "HTML"⟩

/-- A template whose rendering always throws. -/
def tplBoom : Template := ⟨fun _ => .error "boom"⟩

/-- A renderer state with exactly the five first-paint templates compiled. -/
def st5 : RState :=
  [("heroStats", tplOK), ("historicalEvents", tplOK), ("statistics", tplOK),
   ("companies", tplOK), ("socialMedia", tplOK)]

/-- A `JSON.parse` oracle: the body `"OBJ"` parses to a small object, anything
else is a syntax error. -/
def parseFixture : JSONParse :=
  fun s => if s == "OBJ" then .ok (.vobj [("x", .vstr "1")]) else .error "Unexpected token"

/-- A network where every file fetch succeeds with body `"OBJ"`. -/
def envAllOk : String → Nat → FetchResp := fun _ _ => .httpResp true 200 "OK" "OBJ"

/-- A network where `data/statistics.json` always fails and every other file
succeeds. -/
def envStatsDown : String → Nat → FetchResp := fun file _ =>
  if file == "data/statistics.json" then .netError "boom" else .httpResp true 200 "OK" "OBJ"

/-! ## Helper lemmas -/

theorem renderTemplate_template_missing {st : RState} {templateName : String}
    (dom : Dom) (data : JValue) (targetSelector : String)
    (h : st.lookup templateName = none) :
    renderTemplate st dom templateName data targetSelector = (false, dom) := by
  simp [renderTemplate, h]

theorem renderTemplate_falsy_data {st : RState} {data : JValue}
    (dom : Dom) (templateName targetSelector : String)
    (h : falsy data = true) :
    renderTemplate st dom templateName data targetSelector = (false, dom) := by
  unfold renderTemplate
  cases st.lookup templateName <;> simp [h]

theorem renderTemplate_target_missing {dom : Dom} {targetSelector : String}
    (st : RState) (templateName : String) (data : JValue)
    (h : dom.lookup targetSelector = none) :
    renderTemplate st dom templateName data targetSelector = (false, dom) := by
  unfold renderTemplate
  cases st.lookup templateName with
  | none => rfl
  | some tpl =>
    by_cases hf : falsy data <;> simp [hf, h]

theorem renderTemplate_render_throws {st : RState} {dom : Dom}
    {templateName targetSelector : String} {data : JValue} {tpl : Template}
    {c msg : String}
    (h1 : st.lookup templateName = some tpl) (h2 : falsy data = false)
    (h3 : dom.lookup targetSelector = some c) (h4 : tpl.run data = .error msg) :
    renderTemplate st dom templateName data targetSelector =
      (false, domSet dom targetSelector (errorPlaceholder templateName msg)) := by
  simp [renderTemplate, handleRenderError, h1, h2, h3, h4]

/-! ## Claim theorems -/

/-- C1: `renderTemplate` fails closed — it returns `false` without throwing
(the model is a total function into `Bool × Dom`, mirroring the source
try/catch) and leaves the DOM untouched when the named template was never
compiled, when `data` is falsy, or when the target does not resolve; and in a
failing call that did resolve its target (the rendering-exception path) the
target's content is overwritten with the inline placeholder naming the
template and the underlying message. -/
theorem renderTemplate_fails_closed (st : RState) (dom : Dom)
    (templateName : String) (data : JValue) (targetSelector : String) :
    (st.lookup templateName = none →
      renderTemplate st dom templateName data targetSelector = (false, dom)) ∧
    (falsy data = true →
      renderTemplate st dom templateName data targetSelector = (false, dom)) ∧
    (dom.lookup targetSelector = none →
      renderTemplate st dom templateName data targetSelector = (false, dom)) ∧
    (∀ tpl c msg, st.lookup templateName = some tpl → falsy data = false →
      dom.lookup targetSelector = some c → tpl.run data = .error msg →
      renderTemplate st dom templateName data targetSelector =
        (false, domSet dom targetSelector (errorPlaceholder templateName msg))) :=
  ⟨fun h => renderTemplate_template_missing dom data targetSelector h,
   fun h => renderTemplate_falsy_data dom templateName targetSelector h,
   fun h => renderTemplate_target_missing st templateName data h,
   fun _ _ _ h1 h2 h3 h4 => renderTemplate_render_throws h1 h2 h3 h4⟩

/-- Witness for C1 at concrete inputs: a missing template, absent data, an
unresolvable target (all returning `false` with the DOM untouched), and a
throwing template whose resolved target receives the placeholder. -/
theorem renderTemplate_fails_closed_witness :
    renderTemplate [] [("#t", "old")] "heroStats" (.vobj []) "#t" = (false, [("#t", "old")]) ∧
    renderTemplate [("heroStats", tplOK)] [("#t", "old")] "heroStats" .vnull "#t" =
      (false, [("#t", "old")]) ∧
    renderTemplate [("heroStats", tplOK)] [] "heroStats" (.vobj []) "#missing" = (false, []) ∧
    renderTemplate [("heroStats", tplBoom)] [("#t", "old")] "heroStats" (.vobj []) "#t" =
      (false, domSet [("#t", "old")] "#t" (errorPlaceholder "heroStats" "boom")) :=
  ⟨(renderTemplate_fails_closed [] [("#t", "old")] "heroStats" (.vobj []) "#t").1 rfl,
   (renderTemplate_fails_closed [("heroStats", tplOK)] [("#t", "old")] "heroStats"
      .vnull "#t").2.1 rfl,
   (renderTemplate_fails_closed [("heroStats", tplOK)] [] "heroStats"
      (.vobj []) "#missing").2.2.1 rfl,
   (renderTemplate_fails_closed [("heroStats", tplBoom)] [("#t", "old")] "heroStats"
      (.vobj []) "#t").2.2.2 tplBoom "old" "boom" rfl rfl rfl rfl⟩

/-- C9: `isReady` is true exactly when the five templates `heroStats`,
`historicalEvents`, `statistics`, `companies` and `socialMedia` are all
compiled — the registered `policies` and `infrastructure` templates are not
consulted — and a `renderTemplate` call naming either of those two fails
closed (returns `false`, DOM untouched) when it is not compiled. -/
theorem isReady_five_templates :
    (∀ st : RState, isReady st = true ↔
      ((st.lookup "heroStats").isSome = true ∧
       (st.lookup "historicalEvents").isSome = true ∧
       (st.lookup "statistics").isSome = true ∧
       (st.lookup "companies").isSome = true ∧
       (st.lookup "socialMedia").isSome = true)) ∧
    (∀ (st : RState) (dom : Dom) (data : JValue) (targetSelector : String),
      st.lookup "policies" = none →
      renderTemplate st dom "policies" data targetSelector = (false, dom)) ∧
    (∀ (st : RState) (dom : Dom) (data : JValue) (targetSelector : String),
      st.lookup "infrastructure" = none →
      renderTemplate st dom "infrastructure" data targetSelector = (false, dom)) := by
  refine ⟨fun st => ?_, fun st dom data tgt h => ?_, fun st dom data tgt h => ?_⟩
  · simp [isReady, List.all_cons, Bool.and_eq_true]
  · exact renderTemplate_template_missing dom data tgt h
  · exact renderTemplate_template_missing dom data tgt h

/-- Witness for C9: the five-template state `st5` is ready even though
`policies` and `infrastructure` were never compiled, and rendering with either
of those names fails closed. -/
theorem isReady_five_templates_witness :
    isReady st5 = true ∧
    renderTemplate st5 [("#x", "old")] "policies" (.vobj []) "#x" = (false, [("#x", "old")]) ∧
    renderTemplate st5 [("#x", "old")] "infrastructure" (.vobj []) "#x" =
      (false, [("#x", "old")]) :=
  ⟨(isReady_five_templates.1 st5).mpr ⟨rfl, rfl, rfl, rfl, rfl⟩,
   isReady_five_templates.2.1 st5 [("#x", "old")] (.vobj []) "#x" rfl,
   isReady_five_templates.2.2 st5 [("#x", "old")] (.vobj []) "#x" rfl⟩

/-- C7: validation carries no state between calls — `validateJSONData` resets
the accumulator on entry, so a second call run from the instance state left by
a first call returns a result with identical contents, and in general the
returned result (and final instance state) is independent of the instance
state the call started from; results are fresh values, so the second call
cannot mutate the first result. -/
theorem validateJSONData_idempotent (jsonData : JValue) (dataType : String) (s : List String) :
    (validateRun jsonData dataType ((validateRun jsonData dataType s).2)).1 =
      (validateRun jsonData dataType s).1 ∧
    ∀ s1 s2 : List String,
      validateRun jsonData dataType s1 = validateRun jsonData dataType s2 :=
  ⟨rfl, fun _ _ => rfl⟩

/-- C8: under the `companies` kind, a `marketShare` given as a string and one
given as a number both pass validation (overall success), while a boolean
fails the union check with a message listing the accepted types
`string, number` (recorded twice: once by the required-field pass and once by
the present-field pass). -/
theorem marketShare_type_union (s : List String) (nm sb ms : String) (k : Int) (b : Bool) :
    (validateRun (.vobj [("companies", .varr [.vobj [("name", .vstr nm),
        ("marketShare", .vstr ms), ("subscribers", .vstr sb)]])]) "companies" s).1 =
      .ok { success := true, errors := [], data := some "Valid" } ∧
    (validateRun (.vobj [("companies", .varr [.vobj [("name", .vstr nm),
        ("marketShare", .vnum k), ("subscribers", .vstr sb)]])]) "companies" s).1 =
      .ok { success := true, errors := [], data := some "Valid" } ∧
    (validateRun (.vobj [("companies", .varr [.vobj [("name", .vstr nm),
        ("marketShare", .vbool b), ("subscribers", .vstr sb)]])]) "companies" s).1 =
      .ok ⟨false,
        ["companies[0].marketShare must be one of: string, number, got: boolean",
         "companies[0].marketShare must be one of: string, number, got: boolean"],
        none⟩ :=
  ⟨rfl, rfl, rfl⟩

theorem VM.bind_ok {α β : Type} {x : VM α} {s s1 : List String} {a : α}
    (h : x s = (.ok a, s1)) (f : α → VM β) : (x >>= f) s = f a s1 := by
  show (match x s with
    | (.ok a, s1) => f a s1
    | (.error e, s1) => (.error e, s1)) = f a s1
  rw [h]

theorem VM.bind_err {α β : Type} {x : VM α} {s s1 : List String} {e : String}
    (h : x s = (.error e, s1)) (f : α → VM β) : (x >>= f) s = (.error e, s1) := by
  show (match x s with
    | (.ok a, s1) => f a s1
    | (.error e, s1) => (.error e, s1)) = (.error e, s1)
  rw [h]

theorem validateFieldType_no_throw (v : JValue) (ft : FieldType) (p : String)
    (s : List String) : ∃ s2, validateFieldType v ft p s = (.ok (), s2) := by
  have key : ∀ actual : String, ∃ s2, ((match ft with
      | FieldType.union ts =>
        if ts.contains actual then pure ()
        else addError (p ++ " must be one of: " ++ String.intercalate ", " ts
          ++ ", got: " ++ actual)
      | FieldType.single t =>
        if actual == t then pure ()
        else addError (p ++ " must be " ++ t ++ ", got: " ++ actual)) : VM Unit) s =
      (.ok (), s2) := by
    intro actual
    cases ft with
    | union ts =>
      dsimp only
      by_cases hc : ts.contains actual = true
      · exact ⟨s, by rw [if_pos hc]; rfl⟩
      · exact ⟨_, by rw [if_neg hc]; rfl⟩
    | single t =>
      dsimp only
      by_cases hc : (actual == t) = true
      · exact ⟨s, by rw [if_pos hc]; rfl⟩
      · exact ⟨_, by rw [if_neg hc]; rfl⟩
  exact key (if isArray v then "array" else jsTypeof v)

theorem checkPresent_no_throw (spec : FieldSpec) (item : JValue) (p : String) :
    ∀ (l : List String) (s : List String), ∃ s2, checkPresent spec item p l s = (.ok (), s2) := by
  intro l
  induction l with
  | nil => exact fun s => ⟨s, rfl⟩
  | cons f fs ih =>
    intro s
    show ∃ s2, ((match spec.types.lookup f with
      | some ft => validateFieldType (getPropD item f) ft (p ++ "." ++ f)
      | none => pure ()) >>= fun _ =>
      checkPresent spec item p fs) s = (.ok (), s2)
    cases hft : spec.types.lookup f with
    | some ft =>
      obtain ⟨s1, h1⟩ := validateFieldType_no_throw (getPropD item f) ft (p ++ "." ++ f) s
      obtain ⟨s2, h2⟩ := ih s1
      exact ⟨s2, (VM.bind_ok (f := fun _ => checkPresent spec item p fs) h1).trans h2⟩
    | none =>
      obtain ⟨s2, h2⟩ := ih s
      exact ⟨s2, h2⟩

theorem jsIn_no_throw_obj (f : String) (fs : List (String × JValue)) (s : List String) :
    jsIn f (.vobj fs) s = (.ok ((fs.lookup f).isSome), s) := rfl

theorem checkRequired_no_throw (spec : FieldSpec) (item : JValue) (p : String)
    (hitem : (∃ fs, item = .vobj fs) ∨ (∃ xs, item = .varr xs)) :
    ∀ (l : List String) (s : List String), ∃ s2, checkRequired spec item p l s = (.ok (), s2) := by
  intro l
  induction l with
  | nil => exact fun s => ⟨s, rfl⟩
  | cons f fs ih =>
    intro s
    have hin : ∃ b, jsIn f item s = (.ok b, s) := by
      rcases hitem with ⟨gs, rfl⟩ | ⟨xs, rfl⟩
      · exact ⟨_, rfl⟩
      · exact ⟨_, rfl⟩
    obtain ⟨b, hb⟩ := hin
    cases b with
    | true =>
      obtain ⟨s1, h1⟩ := validateFieldType_no_throw (getPropD item f)
        ((spec.types.lookup f).getD (.single "undefined")) (p ++ "." ++ f) s
      obtain ⟨s2, h2⟩ := ih s1
      refine ⟨s2, (VM.bind_ok (f := fun present =>
        (if present then
          validateFieldType (getPropD item f)
            ((spec.types.lookup f).getD (.single "undefined")) (p ++ "." ++ f)
        else
          addError (p ++ " missing required field: " ++ f)) >>= fun _ =>
        checkRequired spec item p fs) hb).trans ?_⟩
      exact (VM.bind_ok (f := fun _ => checkRequired spec item p fs) h1).trans h2
    | false =>
      obtain ⟨s2, h2⟩ := ih (s ++ [p ++ " missing required field: " ++ f])
      exact ⟨s2, (VM.bind_ok (f := fun present =>
        (if present then
          validateFieldType (getPropD item f)
            ((spec.types.lookup f).getD (.single "undefined")) (p ++ "." ++ f)
        else
          addError (p ++ " missing required field: " ++ f)) >>= fun _ =>
        checkRequired spec item p fs) hb).trans h2⟩

theorem VM.seq_ok {α β : Type} {x : VM α} {f : α → VM β} {s s1 : List String} {a : α}
    {out : Except String β × List String}
    (h : x s = (.ok a, s1)) (h2 : f a s1 = out) : (x >>= f) s = out :=
  (VM.bind_ok h f).trans h2

theorem validateItemStructure_obj_arr (itemType : String) (it : JValue) (p : String)
    (spec : FieldSpec) (hit : (jsTypeof it != "object") = false)
    (hspec : getRequiredFields.lookup itemType = some spec) :
    validateItemStructure it itemType p =
      (checkRequired spec it p spec.required >>= fun _ =>
        checkPresent spec it p (jsKeys it)) := by
  unfold validateItemStructure
  rw [hit, hspec]
  rfl

theorem validateItemStructure_no_spec (itemType : String) (it : JValue) (p : String)
    (hit : (jsTypeof it != "object") = false)
    (hspec : getRequiredFields.lookup itemType = none) :
    validateItemStructure it itemType p = addError ("Unknown item type: " ++ itemType) := by
  unfold validateItemStructure
  rw [hit, hspec]
  rfl

theorem validateItemStructure_no_throw (itemType : String) (item : JValue) (p : String)
    (s : List String) (h : item ≠ .vnull) :
    ∃ s2, validateItemStructure item itemType p s = (.ok (), s2) := by
  have hso : ∀ (it : JValue), (jsTypeof it != "object") = false →
      ((∃ gs, it = .vobj gs) ∨ (∃ xs, it = .varr xs)) →
      ∃ s2, validateItemStructure it itemType p s = (.ok (), s2) := by
    intro it hit hform
    cases hspec : getRequiredFields.lookup itemType with
    | none =>
      refine ⟨s ++ ["Unknown item type: " ++ itemType], ?_⟩
      rw [validateItemStructure_no_spec itemType it p hit hspec]
      rfl
    | some spec =>
      obtain ⟨s1, h1⟩ := checkRequired_no_throw spec it p hform spec.required s
      obtain ⟨s2, h2⟩ := checkPresent_no_throw spec it p (jsKeys it) s1
      refine ⟨s2, ?_⟩
      rw [validateItemStructure_obj_arr itemType it p spec hit hspec]
      exact (VM.bind_ok (f := fun _ => checkPresent spec it p (jsKeys it)) h1).trans h2
  cases item with
  | vnull => exact absurd rfl h
  | vundefined => exact ⟨_, rfl⟩
  | vbool b => exact ⟨_, rfl⟩
  | vnum n => exact ⟨_, rfl⟩
  | vstr t => exact ⟨_, rfl⟩
  | varr xs => exact hso (.varr xs) rfl (Or.inr ⟨xs, rfl⟩)
  | vobj fs => exact hso (.vobj fs) rfl (Or.inl ⟨fs, rfl⟩)

theorem validateItemStructure_null (itemType p : String) (spec : FieldSpec)
    (f : String) (rest : List String)
    (hspec : getRequiredFields.lookup itemType = some spec)
    (hreq : spec.required = f :: rest) (s : List String) :
    validateItemStructure .vnull itemType p s =
      (.error ("Cannot use \x27in\x27 operator to search for \x27" ++ f ++ "\x27 in null"),
        s) := by
  rw [validateItemStructure_obj_arr itemType .vnull p spec rfl hspec, hreq]
  rfl

theorem validateArrayItemsGo_null (itemType : String) (spec : FieldSpec) (f : String)
    (rest : List String) (hspec : getRequiredFields.lookup itemType = some spec)
    (hreq : spec.required = f :: rest) (post : List JValue) :
    ∀ (pre : List JValue) (i : Nat) (s : List String), ∃ s2,
      validateArrayItemsGo itemType (pre ++ .vnull :: post) i s =
        (.error ("Cannot use \x27in\x27 operator to search for \x27" ++ f ++ "\x27 in null"),
          s2) := by
  intro pre
  induction pre with
  | nil =>
    intro i s
    exact ⟨s, VM.bind_err
      (validateItemStructure_null itemType (itemType ++ "[" ++ toString i ++ "]")
        spec f rest hspec hreq s)
      (fun _ => validateArrayItemsGo itemType post (i + 1))⟩
  | cons x pre ih =>
    intro i s
    by_cases hx : x = .vnull
    · subst hx
      exact ⟨s, VM.bind_err
        (validateItemStructure_null itemType (itemType ++ "[" ++ toString i ++ "]")
          spec f rest hspec hreq s)
        (fun _ => validateArrayItemsGo itemType (pre ++ .vnull :: post) (i + 1))⟩
    · obtain ⟨s1, h1⟩ := validateItemStructure_no_throw itemType x
        (itemType ++ "[" ++ toString i ++ "]") s hx
      obtain ⟨s2, h2⟩ := ih (i + 1) s1
      exact ⟨s2, (VM.bind_ok
        (f := fun _ => validateArrayItemsGo itemType (pre ++ .vnull :: post) (i + 1))
        h1).trans h2⟩

/-- C10: in every array-of-entities validation — the `heroStats` array and the
nested `foundationEra.events`, `foundationEra.yearlyStats`, `mobileEra.events`,
`mobileEra.socialMediaGrowth` and `fintechEra.events` arrays of the
`historical_events` kind, and the entity arrays of the `companies`,
`social_media`, `policies` and `infrastructure` kinds — an element that is the
value `null` (with arbitrary elements before and after it, and from any prior
accumulator state) makes `validateJSONData` return the single wrapped result
`{success: false, errors: [one wrapped message naming the kind\x27s first
required field], data: null}`: `typeof null` is `"object"` so the null passes
the aggregate guard, the required-field `in` check throws, and the
dispatch-level catch wraps the message and discards every error accumulated
for earlier elements and earlier sections of the same call. -/
theorem nullElement_single_wrapped_error (pre post : List JValue) (s : List String) :
    ((validateRun (.vobj [("heroStats", .varr (pre ++ .vnull :: post))])
        "historical_events" s).1 =
      .ok ⟨false,
        ["Validation error: Cannot use \x27in\x27 operator to search for \x27icon\x27 in null"],
        none⟩) ∧
    ((validateRun (.vobj [("foundationEra",
        .vobj [("events", .varr (pre ++ .vnull :: post))])]) "historical_events" s).1 =
      .ok ⟨false,
        ["Validation error: Cannot use \x27in\x27 operator to search for \x27date\x27 in null"],
        none⟩) ∧
    ((validateRun (.vobj [("foundationEra", .vobj [("events", .varr []),
        ("yearlyStats", .varr (pre ++ .vnull :: post))])]) "historical_events" s).1 =
      .ok ⟨false,
        ["Validation error: Cannot use \x27in\x27 operator to search for \x27year\x27 in null"],
        none⟩) ∧
    ((validateRun (.vobj [("mobileEra",
        .vobj [("events", .varr (pre ++ .vnull :: post))])]) "historical_events" s).1 =
      .ok ⟨false,
        ["Validation error: Cannot use \x27in\x27 operator to search for \x27date\x27 in null"],
        none⟩) ∧
    ((validateRun (.vobj [("mobileEra", .vobj [("events", .varr []),
        ("socialMediaGrowth", .varr (pre ++ .vnull :: post))])]) "historical_events" s).1 =
      .ok ⟨false,
        ["Validation error: Cannot use \x27in\x27 operator to search for \x27platform\x27 in null"],
        none⟩) ∧
    ((validateRun (.vobj [("fintechEra",
        .vobj [("events", .varr (pre ++ .vnull :: post))])]) "historical_events" s).1 =
      .ok ⟨false,
        ["Validation error: Cannot use \x27in\x27 operator to search for \x27date\x27 in null"],
        none⟩) ∧
    ((validateRun (.vobj [("companies", .varr (pre ++ .vnull :: post))]) "companies" s).1 =
      .ok ⟨false,
        ["Validation error: Cannot use \x27in\x27 operator to search for \x27name\x27 in null"],
        none⟩) ∧
    ((validateRun (.vobj [("platforms", .varr (pre ++ .vnull :: post))]) "social_media" s).1 =
      .ok ⟨false,
        ["Validation error: Cannot use \x27in\x27 operator to search for \x27platform\x27 in null"],
        none⟩) ∧
    ((validateRun (.vobj [("policies", .varr (pre ++ .vnull :: post))]) "policies" s).1 =
      .ok ⟨false,
        ["Validation error: Cannot use \x27in\x27 operator to search for \x27title\x27 in null"],
        none⟩) ∧
    ((validateRun (.vobj [("infrastructure", .varr (pre ++ .vnull :: post))])
        "infrastructure" s).1 =
      .ok ⟨false,
        ["Validation error: Cannot use \x27in\x27 operator to search for \x27name\x27 in null"],
        none⟩) := by
  refine ⟨?_, ?_, ?_, ?_, ?_, ?_, ?_, ?_, ?_, ?_⟩
  · obtain ⟨s2, h2⟩ := validateArrayItemsGo_null "heroStats" _ "icon" _ rfl rfl post pre 0 []
    have hrun : validateHistoricalEvents
        (.vobj [("heroStats", .varr (pre ++ .vnull :: post))]) [] =
        (.error "Cannot use \x27in\x27 operator to search for \x27icon\x27 in null", s2) := by
      unfold validateHistoricalEvents
      exact VM.bind_err h2 _
    show (vmTry (validateHistoricalEvents
        (.vobj [("heroStats", .varr (pre ++ .vnull :: post))]))
        (fun e => pure (validationFailed ("Validation error: " ++ e))) []).1 = _
    unfold vmTry
    rw [hrun]
    rfl
  · obtain ⟨s2, h2⟩ := validateArrayItemsGo_null "historicalEvents" _ "date" _ rfl rfl post
      pre 0 ["heroStats must be an array"]
    have hfe : validateFoundationEra (.vobj [("events", .varr (pre ++ .vnull :: post))])
        ["heroStats must be an array"] =
        (.error "Cannot use \x27in\x27 operator to search for \x27date\x27 in null", s2) := by
      unfold validateFoundationEra
      exact VM.bind_err h2 _
    have hrun : validateHistoricalEvents (.vobj [("foundationEra",
        .vobj [("events", .varr (pre ++ .vnull :: post))])]) [] =
        (.error "Cannot use \x27in\x27 operator to search for \x27date\x27 in null", s2) := by
      unfold validateHistoricalEvents
      exact VM.seq_ok rfl (VM.bind_err hfe _)
    show (vmTry (validateHistoricalEvents (.vobj [("foundationEra",
        .vobj [("events", .varr (pre ++ .vnull :: post))])]))
        (fun e => pure (validationFailed ("Validation error: " ++ e))) []).1 = _
    unfold vmTry
    rw [hrun]
    rfl
  · obtain ⟨s2, h2⟩ := validateArrayItemsGo_null "yearlyStats" _ "year" _ rfl rfl post
      pre 0 ["heroStats must be an array"]
    have hfe : validateFoundationEra (.vobj [("events", .varr []),
        ("yearlyStats", .varr (pre ++ .vnull :: post))]) ["heroStats must be an array"] =
        (.error "Cannot use \x27in\x27 operator to search for \x27year\x27 in null", s2) := by
      unfold validateFoundationEra
      exact VM.seq_ok rfl h2
    have hrun : validateHistoricalEvents (.vobj [("foundationEra", .vobj [("events", .varr []),
        ("yearlyStats", .varr (pre ++ .vnull :: post))])]) [] =
        (.error "Cannot use \x27in\x27 operator to search for \x27year\x27 in null", s2) := by
      unfold validateHistoricalEvents
      exact VM.seq_ok rfl (VM.bind_err hfe _)
    show (vmTry (validateHistoricalEvents (.vobj [("foundationEra", .vobj [("events", .varr []),
        ("yearlyStats", .varr (pre ++ .vnull :: post))])]))
        (fun e => pure (validationFailed ("Validation error: " ++ e))) []).1 = _
    unfold vmTry
    rw [hrun]
    rfl
  · obtain ⟨s2, h2⟩ := validateArrayItemsGo_null "historicalEvents" _ "date" _ rfl rfl post
      pre 0 ["heroStats must be an array", "foundationEra must be an object"]
    have hme : validateMobileEra (.vobj [("events", .varr (pre ++ .vnull :: post))])
        ["heroStats must be an array", "foundationEra must be an object"] =
        (.error "Cannot use \x27in\x27 operator to search for \x27date\x27 in null", s2) := by
      unfold validateMobileEra
      exact VM.bind_err h2 _
    have hrun : validateHistoricalEvents (.vobj [("mobileEra",
        .vobj [("events", .varr (pre ++ .vnull :: post))])]) [] =
        (.error "Cannot use \x27in\x27 operator to search for \x27date\x27 in null", s2) := by
      unfold validateHistoricalEvents
      exact VM.seq_ok rfl (VM.seq_ok rfl (VM.bind_err hme _))
    show (vmTry (validateHistoricalEvents (.vobj [("mobileEra",
        .vobj [("events", .varr (pre ++ .vnull :: post))])]))
        (fun e => pure (validationFailed ("Validation error: " ++ e))) []).1 = _
    unfold vmTry
    rw [hrun]
    rfl
  · obtain ⟨s2, h2⟩ := validateArrayItemsGo_null "socialMediaPlatforms" _ "platform" _ rfl rfl
      post pre 0 ["heroStats must be an array", "foundationEra must be an object"]
    have hme : validateMobileEra (.vobj [("events", .varr []),
        ("socialMediaGrowth", .varr (pre ++ .vnull :: post))])
        ["heroStats must be an array", "foundationEra must be an object"] =
        (.error "Cannot use \x27in\x27 operator to search for \x27platform\x27 in null", s2) := by
      unfold validateMobileEra
      exact VM.seq_ok rfl h2
    have hrun : validateHistoricalEvents (.vobj [("mobileEra", .vobj [("events", .varr []),
        ("socialMediaGrowth", .varr (pre ++ .vnull :: post))])]) [] =
        (.error "Cannot use \x27in\x27 operator to search for \x27platform\x27 in null", s2) := by
      unfold validateHistoricalEvents
      exact VM.seq_ok rfl (VM.seq_ok rfl (VM.bind_err hme _))
    show (vmTry (validateHistoricalEvents (.vobj [("mobileEra", .vobj [("events", .varr []),
        ("socialMediaGrowth", .varr (pre ++ .vnull :: post))])]))
        (fun e => pure (validationFailed ("Validation error: " ++ e))) []).1 = _
    unfold vmTry
    rw [hrun]
    rfl
  · obtain ⟨s2, h2⟩ := validateArrayItemsGo_null "historicalEvents" _ "date" _ rfl rfl post
      pre 0 ["heroStats must be an array", "foundationEra must be an object",
        "mobileEra must be an object"]
    have hfte : validateFintechEra (.vobj [("events", .varr (pre ++ .vnull :: post))])
        ["heroStats must be an array", "foundationEra must be an object",
          "mobileEra must be an object"] =
        (.error "Cannot use \x27in\x27 operator to search for \x27date\x27 in null", s2) := by
      unfold validateFintechEra
      exact VM.bind_err h2 _
    have hrun : validateHistoricalEvents (.vobj [("fintechEra",
        .vobj [("events", .varr (pre ++ .vnull :: post))])]) [] =
        (.error "Cannot use \x27in\x27 operator to search for \x27date\x27 in null", s2) := by
      unfold validateHistoricalEvents
      exact VM.seq_ok rfl (VM.seq_ok rfl (VM.seq_ok rfl (VM.bind_err hfte _)))
    show (vmTry (validateHistoricalEvents (.vobj [("fintechEra",
        .vobj [("events", .varr (pre ++ .vnull :: post))])]))
        (fun e => pure (validationFailed ("Validation error: " ++ e))) []).1 = _
    unfold vmTry
    rw [hrun]
    rfl
  · obtain ⟨s2, h2⟩ := validateArrayItemsGo_null "companies" _ "name" _ rfl rfl post pre 0 []
    have hvc : validateCompanies
        (JValue.vobj [("companies", JValue.varr (pre ++ JValue.vnull :: post))]) [] =
        (.error "Cannot use \x27in\x27 operator to search for \x27name\x27 in null", s2) :=
      VM.bind_err h2 (fun _ => getValidationResult)
    show (vmTry (validateCompanies
        (JValue.vobj [("companies", JValue.varr (pre ++ JValue.vnull :: post))]))
        (fun e => pure (validationFailed ("Validation error: " ++ e))) []).1 = _
    unfold vmTry
    rw [hvc]
    rfl
  · obtain ⟨s2, h2⟩ := validateArrayItemsGo_null "socialMediaPlatforms" _ "platform" _ rfl rfl
      post pre 0 []
    have hvs : validateSocialMedia
        (JValue.vobj [("platforms", JValue.varr (pre ++ JValue.vnull :: post))]) [] =
        (.error "Cannot use \x27in\x27 operator to search for \x27platform\x27 in null", s2) :=
      VM.bind_err h2 (fun _ => getValidationResult)
    show (vmTry (validateSocialMedia
        (JValue.vobj [("platforms", JValue.varr (pre ++ JValue.vnull :: post))]))
        (fun e => pure (validationFailed ("Validation error: " ++ e))) []).1 = _
    unfold vmTry
    rw [hvs]
    rfl
  · obtain ⟨s2, h2⟩ := validateArrayItemsGo_null "policies" _ "title" _ rfl rfl post pre 0 []
    have hvp : validatePolicies
        (JValue.vobj [("policies", JValue.varr (pre ++ JValue.vnull :: post))]) [] =
        (.error "Cannot use \x27in\x27 operator to search for \x27title\x27 in null", s2) :=
      VM.bind_err h2 (fun _ => getValidationResult)
    show (vmTry (validatePolicies
        (JValue.vobj [("policies", JValue.varr (pre ++ JValue.vnull :: post))]))
        (fun e => pure (validationFailed ("Validation error: " ++ e))) []).1 = _
    unfold vmTry
    rw [hvp]
    rfl
  · obtain ⟨s2, h2⟩ := validateArrayItemsGo_null "infrastructure" _ "name" _ rfl rfl post pre 0 []
    have hvi : validateInfrastructure
        (JValue.vobj [("infrastructure", JValue.varr (pre ++ JValue.vnull :: post))]) [] =
        (.error "Cannot use \x27in\x27 operator to search for \x27name\x27 in null", s2) :=
      VM.bind_err h2 (fun _ => getValidationResult)
    show (vmTry (validateInfrastructure
        (JValue.vobj [("infrastructure", JValue.varr (pre ++ JValue.vnull :: post))]))
        (fun e => pure (validationFailed ("Validation error: " ++ e))) []).1 = _
    unfold vmTry
    rw [hvi]
    rfl

theorem chainLe_mul (d : Nat) : ∀ (len a : Nat),
    List.Chain' (· ≤ ·) ((List.range' a len).map (fun k => d * k)) := by
  intro len
  induction len with
  | zero => intro a; simp
  | succ n ih =>
    intro a
    cases n with
    | zero => simp
    | succ m =>
      have h1 := ih (a + 1)
      rw [List.range'_succ] at h1
      rw [List.range'_succ, List.range'_succ, List.map_cons, List.map_cons]
      rw [List.map_cons] at h1
      exact List.Chain'.cons (Nat.mul_le_mul_left d (Nat.le_succ a)) h1

theorem loadLoop_all_fail (cfg : LoadConfig) (parse : JSONParse) (env : Nat → FetchResp)
    (msgs : Nat → String) :
    ∀ (r a : Nat) (le : Option String), 1 ≤ r →
      (∀ n, a ≤ n → n < a + r → attemptLoad parse env n = .error (msgs n)) →
      loadLoop cfg parse env r a le =
        .exhausted (some (msgs (a + r - 1))) r
          ((List.range' a (r - 1)).map (fun k => cfg.retryDelay * k)) := by
  intro r
  induction r with
  | zero => intro a le h1 _; exact absurd h1 (by omega)
  | succ r ih =>
    intro a le h1 h2
    have ha : attemptLoad parse env a = .error (msgs a) := h2 a (Nat.le_refl a) (by omega)
    simp only [loadLoop]
    rw [ha]
    cases r with
    | zero =>
      simp
    | succ r2 =>
      have hne : ((r2 + 1 : Nat) == 0) = false := rfl
      rw [hne]
      simp only [Bool.false_eq_true, if_false]
      rw [ih (a + 1) (some (msgs a)) (by omega) (fun n hn1 hn2 => h2 n (by omega) (by omega))]
      have e1 : a + 1 + (r2 + 1) - 1 = a + (r2 + 1 + 1) - 1 := by omega
      have e2 : (r2 + 1 + 1 : Nat) - 1 = r2 + 1 := rfl
      have e3 : (r2 + 1 : Nat) - 1 = r2 := rfl
      rw [e1, e2, e3, List.range'_succ, List.map_cons]

/-- C4: for the mandatory `historical_events.json` path, when every fetch or
parse attempt fails, `loadJSONFile` performs exactly `retryAttempts` attempts,
awaits `retryDelay * attemptNumber` between consecutive attempts — a
monotonically non-decreasing delay sequence — and then throws the fatal error
naming the file path and the last underlying failure. -/
theorem loadJSONFile_retry_budget (cfg : LoadConfig) (parse : JSONParse)
    (env : Nat → FetchResp) (filePath : String) (msgs : Nat → String)
    (h1 : 1 ≤ cfg.retryAttempts)
    (h2 : ∀ n, 1 ≤ n → n ≤ cfg.retryAttempts → attemptLoad parse env n = .error (msgs n))
    (h3 : strIncludes filePath "historical_events.json" = true) :
    loadJSONFile cfg parse env filePath =
      { result := .error ("Failed to load critical data file: " ++ filePath
          ++ ". Last error: " ++ msgs cfg.retryAttempts),
        attempts := cfg.retryAttempts,
        delays := (List.range' 1 (cfg.retryAttempts - 1)).map (fun k => cfg.retryDelay * k) } ∧
    List.Chain' (· ≤ ·)
      ((List.range' 1 (cfg.retryAttempts - 1)).map (fun k => cfg.retryDelay * k)) := by
  have hl := loadLoop_all_fail cfg parse env msgs cfg.retryAttempts 1 none h1
    (fun n hn1 hn2 => h2 n hn1 (by omega))
  have e1 : 1 + cfg.retryAttempts - 1 = cfg.retryAttempts := by omega
  rw [e1] at hl
  constructor
  · unfold loadJSONFile
    rw [hl]
    simp only [h3, if_true]
  · exact chainLe_mul cfg.retryDelay (cfg.retryAttempts - 1) 1

/-- Witness for C4 at the default configuration (three attempts, base delay
1000) and an always-failing network. -/
theorem loadJSONFile_retry_budget_witness :
    loadJSONFile defaultConfig parseFixture (fun _ => .netError "network down")
        "data/historical_events.json" =
      { result := .error ("Failed to load critical data file: " ++
          "data/historical_events.json" ++ ". Last error: " ++ "network down"),
        attempts := 3,
        delays := [1000, 2000] } ∧
    List.Chain' (· ≤ ·) ([1000, 2000] : List Nat) :=
  loadJSONFile_retry_budget defaultConfig parseFixture (fun _ => .netError "network down")
    "data/historical_events.json" (fun _ => "network down") (by decide)
    (fun _ _ _ => rfl) (by decide)

theorem lookup_setKey_ne (d : AppData) (k k2 : String) (v : JValue) (h : k2 ≠ k) :
    (setKey d k2 v).lookup k = d.lookup k := by
  induction d with
  | nil =>
    have hb : (k == k2) = false := beq_eq_false_iff_ne.mpr (fun hk => h hk.symm)
    simp [setKey, List.lookup, hb]
  | cons p rest ih =>
    obtain ⟨k1, v1⟩ := p
    by_cases h1 : (k1 == k2) = true
    · have hk1 : k1 = k2 := eq_of_beq h1
      have hb : (k == k1) = false :=
        beq_eq_false_iff_ne.mpr (fun hk => h (hk1 ▸ hk.symm ▸ rfl))
      simp [setKey, h1, List.lookup, hb]
    · simp [setKey, h1, List.lookup]
      cases hkk : (k == k1) <;> simp [ih]

theorem optionalStep_lookup (cfg : LoadConfig) (parse : JSONParse)
    (fenv : String → Nat → FetchResp) (file : String) (d : AppData) (k : String)
    (h : deriveKey file ≠ k ∨ (loadJSONFile cfg parse (fenv file) file).result = .ok .vnull) :
    (match (loadJSONFile cfg parse (fenv file) file).result with
     | .ok v => if truthy v then setKey d (deriveKey file) v else d
     | .error _ => d).lookup k = d.lookup k := by
  cases hres : (loadJSONFile cfg parse (fenv file) file).result with
  | error m => rfl
  | ok v =>
    rcases h with h | h
    · by_cases ht : truthy v = true
      · simp only [ht, if_true]
        exact lookup_setKey_ne d k (deriveKey file) v h
      · simp [ht]
    · have hv : v = .vnull := by
        have := hres.symm.trans h
        exact (Except.ok.injEq _ _).mp this
      subst hv
      rfl

theorem foldlStep_preserves (cfg : LoadConfig) (parse : JSONParse)
    (fenv : String → Nat → FetchResp) (k : String) :
    ∀ (files : List String) (d : AppData),
      (∀ g ∈ files, deriveKey g ≠ k ∨ (loadJSONFile cfg parse (fenv g) g).result = .ok .vnull) →
      (files.foldl (fun d file =>
        match (loadJSONFile cfg parse (fenv file) file).result with
        | .ok v => if truthy v then setKey d (deriveKey file) v else d
        | .error _ => d) d).lookup k = d.lookup k := by
  intro files
  induction files with
  | nil => intro d _; rfl
  | cons g gs ih =>
    intro d hall
    rw [List.foldl_cons]
    rw [ih _ (fun g2 hg2 => hall g2 (List.mem_cons_of_mem g hg2))]
    exact optionalStep_lookup cfg parse fenv g d k (hall g (List.mem_cons_self g gs))

theorem optionalFiles_keys_distinct :
    ∀ x ∈ optionalFiles, ∀ y ∈ optionalFiles, x ≠ y → deriveKey x ≠ deriveKey y := by
  decide

theorem optionalFiles_not_mandatory :
    ∀ x ∈ optionalFiles, strIncludes x "historical_events.json" = false := by
  decide

theorem optionalFiles_key_not_primary :
    ∀ x ∈ optionalFiles, ("historical_events" : String) ≠ deriveKey x := by
  decide

theorem loadOptionalDataFiles_key_preserved (cfg : LoadConfig) (parse : JSONParse)
    (fenv : String → Nat → FetchResp) (f : String) (hf : f ∈ optionalFiles)
    (hnull : (loadJSONFile cfg parse (fenv f) f).result = .ok .vnull) (d : AppData) :
    (loadOptionalDataFiles cfg parse fenv d).lookup (deriveKey f) =
      d.lookup (deriveKey f) := by
  refine foldlStep_preserves cfg parse fenv (deriveKey f) optionalFiles d (fun g hg => ?_)
  by_cases hgf : g = f
  · exact Or.inr (hgf ▸ hnull)
  · exact Or.inl (optionalFiles_keys_distinct g hg f hf hgf)

theorem loadAllData_key_preserved (cfg : LoadConfig) (parse : JSONParse)
    (fenv : String → Nat → FetchResp) (f : String) (d d2 : AppData)
    (hf : f ∈ optionalFiles)
    (hnull : (loadJSONFile cfg parse (fenv f) f).result = .ok .vnull)
    (hok : loadAllData cfg parse fenv d = .ok d2) :
    d2.lookup (deriveKey f) = d.lookup (deriveKey f) := by
  unfold loadAllData at hok
  cases hres : (loadJSONFile cfg parse (fenv "data/historical_events.json")
      "data/historical_events.json").result with
  | error m =>
    rw [hres] at hok
    exact absurd hok (by simp)
  | ok primary =>
    rw [hres] at hok
    have hd2 : loadOptionalDataFiles cfg parse fenv
        (if truthy primary then setKey d "historical_events" primary else d) = d2 :=
      (Except.ok.injEq _ _).mp hok
    rw [← hd2]
    rw [loadOptionalDataFiles_key_preserved cfg parse fenv f hf hnull]
    by_cases ht : truthy primary = true
    · rw [if_pos ht]
      exact lookup_setKey_ne d (deriveKey f) "historical_events" primary
        (optionalFiles_key_not_primary f hf)
    · rw [if_neg ht]

theorem loadJSONFile_optional_null (cfg : LoadConfig) (parse : JSONParse)
    (env : Nat → FetchResp) (f : String) (msgs : Nat → String)
    (hnm : strIncludes f "historical_events.json" = false)
    (h1 : 1 ≤ cfg.retryAttempts)
    (h2 : ∀ n, 1 ≤ n → n ≤ cfg.retryAttempts → attemptLoad parse env n = .error (msgs n)) :
    (loadJSONFile cfg parse env f).result = .ok .vnull := by
  have hl := loadLoop_all_fail cfg parse env msgs cfg.retryAttempts 1 none h1
    (fun n hn1 hn2 => h2 n hn1 (by omega))
  unfold loadJSONFile
  rw [hl]
  simp only [hnm, Bool.false_eq_true, if_false]

/-- C6: for an optional file whose every fetch/parse attempt fails,
`loadJSONFile` returns `null` instead of throwing, and when the pipeline's
load pass completes (`loadAllData` succeeds) the file's derived key — absent
beforehand, as in the fresh start-up pass — is entirely absent from the data
object rather than present with a null value. -/
theorem optional_degradation (cfg : LoadConfig) (parse : JSONParse)
    (fenv : String → Nat → FetchResp) (f : String) (d d2 : AppData) (msgs : Nat → String)
    (hf : f ∈ optionalFiles)
    (h1 : 1 ≤ cfg.retryAttempts)
    (h2 : ∀ n, 1 ≤ n → n ≤ cfg.retryAttempts → attemptLoad parse (fenv f) n = .error (msgs n))
    (h3 : d.lookup (deriveKey f) = none)
    (h4 : loadAllData cfg parse fenv d = .ok d2) :
    (loadJSONFile cfg parse (fenv f) f).result = .ok .vnull ∧
    d2.lookup (deriveKey f) = none := by
  have hnull : (loadJSONFile cfg parse (fenv f) f).result = .ok .vnull :=
    loadJSONFile_optional_null cfg parse (fenv f) f msgs
      (optionalFiles_not_mandatory f hf) h1 h2
  refine ⟨hnull, ?_⟩
  rw [loadAllData_key_preserved cfg parse fenv f d d2 hf hnull h4]
  exact h3

/-- Witness for C6: statistics always fails while everything else loads; the
pass completes and the resulting data object has no `statistics` key. -/
theorem optional_degradation_witness :
    (loadJSONFile defaultConfig parseFixture (envStatsDown "data/statistics.json")
        "data/statistics.json").result = .ok .vnull ∧
    ([("historical_events", JValue.vobj [("x", JValue.vstr "1")]),
      ("companies", JValue.vobj [("x", JValue.vstr "1")]),
      ("social_media", JValue.vobj [("x", JValue.vstr "1")]),
      ("policies", JValue.vobj [("x", JValue.vstr "1")]),
      ("infrastructure", JValue.vobj [("x", JValue.vstr "1")])] : AppData).lookup
        "statistics" = none :=
  optional_degradation defaultConfig parseFixture envStatsDown "data/statistics.json"
    [] _ (fun _ => "boom") (by decide) (by decide) (fun _ _ _ => rfl) rfl rfl

/-- C5 amended: `retryDataLoad` replays `loadAllData` on the existing data
object, which is never cleared; when every re-load attempt for an optional
file fails during the retry pass, that file's key keeps exactly the value it
had before the retry (so a key populated by an earlier successful pass
persists, contrary to the claim). -/
theorem retryDataLoad_keeps_stale_optional (cfg : LoadConfig) (parse : JSONParse)
    (fenv : String → Nat → FetchResp) (st : RState) (dom : Dom) (f : String)
    (d d2 : AppData) (rr : Except String Dom) (msgs : Nat → String)
    (hf : f ∈ optionalFiles)
    (h1 : 1 ≤ cfg.retryAttempts)
    (h2 : ∀ n, 1 ≤ n → n ≤ cfg.retryAttempts → attemptLoad parse (fenv f) n = .error (msgs n))
    (h3 : retryDataLoad cfg parse fenv st dom d = (d2, rr)) :
    d2.lookup (deriveKey f) = d.lookup (deriveKey f) := by
  have hnull : (loadJSONFile cfg parse (fenv f) f).result = .ok .vnull :=
    loadJSONFile_optional_null cfg parse (fenv f) f msgs
      (optionalFiles_not_mandatory f hf) h1 h2
  unfold retryDataLoad at h3
  cases hld : loadAllData cfg parse fenv d with
  | error m =>
    rw [hld] at h3
    have : d = d2 := congrArg Prod.fst h3
    rw [← this]
  | ok dd =>
    rw [hld] at h3
    have : dd = d2 := congrArg Prod.fst h3
    rw [← this]
    exact loadAllData_key_preserved cfg parse fenv f d dd hf hnull hld

/-- Counterexample for C5: after a first pass in which `statistics.json`
loaded successfully, a retry pass in which its every attempt fails leaves the
`statistics` key populated with the stale value — the claim requires it to be
absent when the re-load fails. -/
theorem retryDataLoad_stale_counterexample :
    ((retryDataLoad defaultConfig parseFixture envStatsDown [] []
        ((retryDataLoad defaultConfig parseFixture envAllOk [] [] []).1)).1).lookup
      "statistics" = some (.vobj [("x", .vstr "1")]) ∧
    (loadJSONFile defaultConfig parseFixture (envStatsDown "data/statistics.json")
        "data/statistics.json").result = .ok .vnull :=
  ⟨rfl, rfl⟩

/-- Witness for C5 (amended): the stale value `"old"` under `statistics`
survives a retry pass whose statistics re-load fails. -/
theorem retryDataLoad_keeps_stale_optional_witness :
    ((retryDataLoad defaultConfig parseFixture envStatsDown st5 []
        [("statistics", JValue.vstr "old")]).1).lookup "statistics" =
      ([("statistics", JValue.vstr "old")] : AppData).lookup "statistics" :=
  retryDataLoad_keeps_stale_optional defaultConfig parseFixture envStatsDown st5 []
    "data/statistics.json" [("statistics", JValue.vstr "old")] _ _ (fun _ => "boom")
    (by decide) (by decide) (fun _ _ _ => rfl) rfl

theorem exc_bind_ok {ε α β : Type} {x : Except ε α} {a : α} (h : x = .ok a)
    (f : α → Except ε β) : (x >>= f) = f a := by
  rw [h]; rfl

theorem exc_bind_err {ε α β : Type} {x : Except ε α} {e : ε} (h : x = .error e)
    (f : α → Except ε β) : (x >>= f) = .error e := by
  rw [h]; rfl

/-- C2 amended: `renderFoundationEra`, `renderMobileEra` and `renderFintechEra`
each return `success.every(result => result === true)` — the logical AND of
the boolean outcomes of the `renderTemplate` calls they issued (when they
complete without throwing) — but `renderSidebarContent` has no return
statement: it issues its calls, discards their outcomes, and returns
`undefined` rather than a boolean. -/
theorem composite_render_outcomes (st : RState) (dom : Dom) (fd md ftd ad : JValue) :
    (∀ s d2, renderFoundationEraCore st dom fd = .ok (s, d2) →
      renderFoundationEra st dom fd = .ok (some (s.all (· == true)), d2)) ∧
    (∀ s d2, renderMobileEraCore st dom md = .ok (s, d2) →
      renderMobileEra st dom md = .ok (some (s.all (· == true)), d2)) ∧
    (∀ s d2, renderFintechEraCore st dom ftd = .ok (s, d2) →
      renderFintechEra st dom ftd = .ok (some (s.all (· == true)), d2)) ∧
    (∀ r d2, renderSidebarContent st dom ad = .ok (r, d2) → r = none) := by
  refine ⟨fun s d2 h => ?_, fun s d2 h => ?_, fun s d2 h => ?_, fun r d2 h => ?_⟩
  · unfold renderFoundationEra
    rw [h]
    rfl
  · unfold renderMobileEra
    rw [h]
    rfl
  · unfold renderFintechEra
    rw [h]
    rfl
  · unfold renderSidebarContent at h
    cases hs : renderSidebarDom st dom ad with
    | error m =>
      rw [hs] at h
      exact absurd h (by simp [Except.map])
    | ok dd =>
      rw [hs] at h
      simp only [Except.map] at h
      have := (Except.ok.injEq _ _).mp h
      exact (congrArg Prod.fst this).symm

/-- Counterexample for C2: a sidebar render pass whose one issued
`renderTemplate` call succeeds (the COVID event is found and written), yet
`renderSidebarContent` evaluates to `undefined` (`none`), not to the boolean
AND (`true`) of its calls. -/
theorem renderSidebarContent_returns_undefined :
    renderSidebarContent st5 [("#covidImpact", "old")]
      (.vobj [("mobileEra", .vobj [("events",
        .varr [.vobj [("title", .vstr "COVID-19 surge")]])])]) =
      .ok (none, [("#covidImpact", "HTML")]) := rfl

/-- Witness for C2 (amended): concrete era data on which each of the three era
renders completes, returning the AND of its constituent outcomes, plus an
application of the sidebar conjunct. -/
theorem composite_render_outcomes_witness :
    renderFoundationEra st5 [("#foundationMilestones", "o1"), ("#foundationStats", "o2"),
        ("#foundationTimeline", "o3")]
      (.vobj [("events", .varr []), ("yearlyStats", .vstr "x")]) =
      .ok (some true, [("#foundationMilestones", "HTML"), ("#foundationStats", "HTML"),
        ("#foundationTimeline", "HTML")]) ∧
    renderMobileEra st5 [("#socialMediaGrowth", "o")]
      (.vobj [("events", .varr []), ("socialMediaGrowth", .varr [])]) =
      .ok (some true, [("#socialMediaGrowth", "HTML")]) ∧
    renderFintechEra st5 [("#mobileBanking", "o1"), ("#investmentBoom", "o2")]
      (.vobj [("events", .varr []), ("mobileBanking", .varr []),
        ("investmentBoom", .varr [])]) =
      .ok (some true, [("#mobileBanking", "HTML"), ("#investmentBoom", "HTML")]) ∧
    (none : Option Bool) = none :=
  ⟨(composite_render_outcomes st5 [("#foundationMilestones", "o1"), ("#foundationStats", "o2"),
      ("#foundationTimeline", "o3")]
      (.vobj [("events", .varr []), ("yearlyStats", .vstr "x")]) .vnull .vnull .vnull).1
      [true, true, true]
      [("#foundationMilestones", "HTML"), ("#foundationStats", "HTML"),
        ("#foundationTimeline", "HTML")] rfl,
   (composite_render_outcomes st5 [("#socialMediaGrowth", "o")] .vnull
      (.vobj [("events", .varr []), ("socialMediaGrowth", .varr [])]) .vnull .vnull).2.1
      [true] [("#socialMediaGrowth", "HTML")] rfl,
   (composite_render_outcomes st5 [("#mobileBanking", "o1"), ("#investmentBoom", "o2")]
      .vnull .vnull
      (.vobj [("events", .varr []), ("mobileBanking", .varr []), ("investmentBoom", .varr [])])
      .vnull).2.2.1 [true, true] [("#mobileBanking", "HTML"), ("#investmentBoom", "HTML")] rfl,
   (composite_render_outcomes st5 [] .vnull .vnull .vnull (.vobj [])).2.2.2 none [] rfl⟩

theorem validateMobileEra_no_events (mfs : List (String × JValue))
    (he : mfs.lookup "events" = none) (hsm : mfs.lookup "socialMediaGrowth" = none) :
    ∀ s, validateMobileEra (.vobj mfs) s =
      (.ok (), (s ++ ["mobileEra.events must be an array"])
        ++ ["mobileEra.socialMediaGrowth must be an array"]) := by
  intro s
  have hev : getPropD (.vobj mfs) "events" = .vundefined := by
    show (mfs.lookup "events").getD .vundefined = .vundefined
    rw [he]
    rfl
  have hsg : getPropD (.vobj mfs) "socialMediaGrowth" = .vundefined := by
    show (mfs.lookup "socialMediaGrowth").getD .vundefined = .vundefined
    rw [hsm]
    rfl
  unfold validateMobileEra
  rw [hev, hsg]
  rfl

theorem renderMobileEra_no_events (st : RState) (dom : Dom)
    (mfs : List (String × JValue)) (he : mfs.lookup "events" = none) :
    renderMobileEra st dom (.vobj mfs) =
      .error "Cannot read properties of undefined (reading \x27find\x27)" := by
  have hev : getProp (.vobj mfs) "events" = .ok .vundefined := by
    show Except.ok ((mfs.lookup "events").getD .vundefined) = .ok .vundefined
    rw [he]
    rfl
  unfold renderMobileEra renderMobileEraCore
  rw [hev]
  rfl

/-- C3 amended: a parsed mandatory document whose `mobileEra` is present but
lacks `events` does downgrade validation as claimed — `success=false` with
errors naming `mobileEra.events` — but the rendering pass is aborted rather
than continued: `renderMobileEra` dereferences `mobileData.events.find` and
throws a TypeError, which `renderAllContent` rethrows as a fatal application
error, so the remaining sections are not rendered. -/
theorem mobileEra_events_absence (s0 : List String) (st : RState) (dom : Dom)
    (mfs : List (String × JValue)) :
    (mfs.lookup "events" = none → mfs.lookup "socialMediaGrowth" = none →
      (validateRun (.vobj [("mobileEra", .vobj mfs)]) "historical_events" s0).1 =
        .ok ⟨false, ["heroStats must be an array", "foundationEra must be an object",
          "mobileEra.events must be an array", "mobileEra.socialMediaGrowth must be an array",
          "fintechEra must be an object"], none⟩) ∧
    (mfs.lookup "events" = none →
      renderMobileEra st dom (.vobj mfs) =
        .error "Cannot read properties of undefined (reading \x27find\x27)") ∧
    (isReady st = true → mfs.lookup "events" = none →
      renderAllContent st dom
        [("historical_events", .vobj [("mobileEra", .vobj mfs)])] =
        .error "Cannot read properties of undefined (reading \x27find\x27)") := by
  refine ⟨fun he hsm => ?_, fun he => renderMobileEra_no_events st dom mfs he,
    fun hready he => ?_⟩
  · have hme := validateMobileEra_no_events mfs he hsm
    have hrun : validateHistoricalEvents (.vobj [("mobileEra", .vobj mfs)]) [] =
        (.ok ⟨false, ["heroStats must be an array", "foundationEra must be an object",
          "mobileEra.events must be an array", "mobileEra.socialMediaGrowth must be an array",
          "fintechEra must be an object"],
          none⟩,
         ["heroStats must be an array", "foundationEra must be an object",
          "mobileEra.events must be an array", "mobileEra.socialMediaGrowth must be an array",
          "fintechEra must be an object"]) := by
      unfold validateHistoricalEvents
      refine VM.seq_ok rfl ?_
      refine VM.seq_ok rfl ?_
      refine VM.seq_ok
        (hme ["heroStats must be an array", "foundationEra must be an object"]) ?_
      refine VM.seq_ok rfl ?_
      rfl
    show (vmTry (validateHistoricalEvents (.vobj [("mobileEra", .vobj mfs)]))
        (fun e => pure (validationFailed ("Validation error: " ++ e))) []).1 = _
    unfold vmTry
    rw [hrun]
  · have hmob := renderMobileEra_no_events st dom mfs he
    unfold renderAllContent
    rw [hready]
    exact exc_bind_err hmob _

/-- Counterexample for C3: for the concrete document
`{mobileEra: {}}`, validation is downgraded with an error naming
`mobileEra.events`, yet the rendering pass surfaces a fatal TypeError instead
of completing the remaining sections. -/
theorem mobileEra_events_absence_counterexample :
    (validateRun (.vobj [("mobileEra", .vobj [])]) "historical_events" []).1 =
      .ok ⟨false, ["heroStats must be an array", "foundationEra must be an object",
        "mobileEra.events must be an array", "mobileEra.socialMediaGrowth must be an array",
        "fintechEra must be an object"], none⟩ ∧
    renderAllContent st5 [] [("historical_events", .vobj [("mobileEra", .vobj [])])] =
      .error "Cannot read properties of undefined (reading \x27find\x27)" :=
  ⟨rfl, rfl⟩

/-- Witness for C3 (amended) at the concrete document `{mobileEra: {}}` and
the five-template renderer state. -/
theorem mobileEra_events_absence_witness :
    (validateRun (.vobj [("mobileEra", .vobj ([] : List (String × JValue)))])
        "historical_events" ["stale"]).1 =
      .ok ⟨false, ["heroStats must be an array", "foundationEra must be an object",
        "mobileEra.events must be an array", "mobileEra.socialMediaGrowth must be an array",
        "fintechEra must be an object"], none⟩ ∧
    renderMobileEra st5 [("#covidImpact", "old")] (.vobj []) =
      .error "Cannot read properties of undefined (reading \x27find\x27)" ∧
    renderAllContent st5 [("#covidImpact", "old")]
      [("historical_events", .vobj [("mobileEra", .vobj [])])] =
      .error "Cannot read properties of undefined (reading \x27find\x27)" :=
  ⟨(mobileEra_events_absence ["stale"] st5 [("#covidImpact", "old")] []).1 rfl rfl,
   (mobileEra_events_absence ["stale"] st5 [("#covidImpact", "old")] []).2.1 rfl,
   (mobileEra_events_absence ["stale"] st5 [("#covidImpact", "old")] []).2.2 rfl rfl⟩
